import Mathlib

/-
Shallow embedding of the OpenRiverCam processing pipeline
(src/processing/tasks.py) and of the camera-configuration form validation
(src/portal/views/camera.py).

Conventions of the embedding:
* machine floats of the source are modelled as rationals; the float
  comparison sqrt(d) > 25 is modelled by the equivalent d > 625 on the
  squared distance (sqrt is strictly monotone on nonnegative reals);
* external numerical primitives of the OpenRiverCam library
  (orthorectification, PIV kernel, coordinate conversion, AOI solve,
  geojson encoding) are taken as explicit function parameters: the claims
  concern only how the tasks call them and route their results;
* the S3 object store and the local scratch directory are modelled by an
  explicit effect trace plus a store-transition function, so that success
  and failure (exception) paths can both be examined;
* Python semantics that the claims depend on is embedded literally:
  string formatting with zero padding, int() truncation toward zero,
  negative-index string slicing, and the NameError raised when a local
  variable is read before any assignment.
-/

/-! ### Python formatting and parsing helpers -/

/-- Zero-pad the decimal string s on the left to width w, as the Python
format specifier 0Nd does; a string already at least w long is returned
unchanged. -/
def padZeros (w : ℕ) (s : String) : String :=
  String.mk (List.replicate (w - s.length) '0') ++ s

/-- Python int() applied to a rational: truncation toward zero. -/
def pyInt (q : ℚ) : ℤ :=
  Int.tdiv q.num q.den

/-- Python format specifier 0Nd on an integer: the sign, when present,
counts toward the padded width. -/
def pyFmtInt (w : ℕ) (z : ℤ) : String :=
  if z < 0 then String.append "-" (padZeros (w - 1) (toString z.natAbs))
  else padZeros w (toString z.natAbs)

/-- Decimal value of a list of digit characters, as Python int() on a
digit string (the fold of the source parse int(key[-10:-4])). -/
def digitsVal (cs : List Char) : ℕ :=
  cs.foldl (fun acc c => 10 * acc + (c.toNat - 48)) 0

/-- Python negative-index slice s[-a:-b] on a string, including the
clamping Python applies when the string is shorter than a. -/
def pySliceNeg (s : String) (a b : ℕ) : List Char :=
  (s.toList.drop (s.length - a)).take ((s.length - b) - (s.length - a))

/-- Millisecond offset parsed from an artifact key exactly as
compute_piv does at line 226: int(fn.key[-10:-4]). -/
def msOfKey (key : String) : ℕ :=
  digitsVal (pySliceNeg key 10 4)

/-- numpy.linspace with endpoint=True over rationals. -/
def linspace (a b : ℚ) (n : ℕ) : List ℚ :=
  if n = 0 then []
  else if n = 1 then [a]
  else (List.range n).map (fun i => a + (b - a) * i / ((n : ℚ) - 1))

/-- First entry of numpy.diff of a list: the difference of the first two
entries; only evaluated under a guard that the list has two entries. -/
def diff0 (l : List ℚ) : ℚ :=
  match l with
  | a :: b :: _ => b - a
  | _ => 0

/-- Column 0 of a two-dimensional numpy array modelled as a list of rows;
rows of a rectangular nonempty array always have a head. -/
def colHead (g : List (List ℚ)) : List ℚ :=
  g.map (fun r => r.headD 0)

/-! ### Error model

PyError.insufficientData stands for the InsufficientDataError named by the
specification taxonomy; it is present so that statements can compare the
actual failure of the code against it. The source under src/ never raises
it and defines no such class. -/

inductive PyError where
  | unboundLocal (name : String)
  | keyError (name : String)
  | indexError
  | insufficientData
deriving DecidableEq, Repr

/-! ### Shared data model -/

/-- Ground control point block of a camera_config: pixel (src) and ground
(dst) coordinate pairs, as the gcps dictionary read by get_aoi and passed
whole to the orthorectification call. -/
structure GcpsD where
  src : List (ℚ × ℚ)
  dst : List (ℚ × ℚ)
deriving DecidableEq, Repr

/-- Site block of a camera_config: only the crs code is read by get_aoi. -/
structure SiteD where
  crs : ℕ
deriving DecidableEq, Repr

/-- A camera_config dictionary as get_aoi receives it: each key may be
missing (none). G is the type of the encoded geojson bounding polygon.
aoiBbox models camera_config["aoi"]["bbox"]. -/
structure CameraConfigD (G : Type) where
  gcps : Option GcpsD
  corners : Option (List (ℚ × ℚ))
  site : Option SiteD
  aoiBbox : Option G
deriving DecidableEq, Repr

def gcpsKey : String := "gcps"
def cornersKey : String := "corners"
def siteKey : String := "site"
def epsgTag : String := "EPSG:"

/-- Log line of get_aoi for a missing gcps key (source line 142; the
single quotes around the key name in the source text are elided). -/
def gcpsMissingMsg : String :=
  "gcps key missing in camera_config dictionary. User must first specify ground control points in interface."

/-- Log line of get_aoi for a missing corners key (source line 146). -/
def cornersMissingMsg : String :=
  "corners key missing in camera_config dictionary. User must first specify a box in the camera objective"

/-- Log line of get_aoi for a missing site key (source line 150). -/
def siteMissingMsg : String :=
  "site key missing in camera_config dictionary. User must first specify site id, location and crs"

/-- Embedding of get_aoi (src/processing/tasks.py lines 133-163).
cvGetAoi stands for OpenRiverCam.cv.get_aoi and toGeojson for
OpenRiverCam.io.to_geojson. The first component of the result collects
the error log lines; the second is the returned camera_config, or the
KeyError the dictionary access raises when a key is absent (the source
only logs the absence and then subscripts the dictionary anyway). -/
def get_aoi {G : Type} (cvGetAoi : List (ℚ × ℚ) → List (ℚ × ℚ) → List (ℚ × ℚ) → List (ℚ × ℚ))
    (toGeojson : List (ℚ × ℚ) → String → G) (cfg : CameraConfigD G) :
    List String × Except PyError (CameraConfigD G) :=
  let logs := (if cfg.gcps.isSome then [] else [gcpsMissingMsg])
    ++ (if cfg.corners.isSome then [] else [cornersMissingMsg])
    ++ (if cfg.site.isSome then [] else [siteMissingMsg])
  match cfg.gcps with
  | none => (logs, Except.error (PyError.keyError gcpsKey))
  | some g =>
    match cfg.corners with
    | none => (logs, Except.error (PyError.keyError cornersKey))
    | some c =>
      match cfg.site with
      | none => (logs, Except.error (PyError.keyError siteKey))
      | some s =>
        let crs := epsgTag ++ toString s.crs
        let bbox := cvGetAoi g.src g.dst c
        let bboxJson := toGeojson bbox crs
        (logs, Except.ok { cfg with aoiBbox := some bboxJson })

/-! ### Camera configuration form validation (src/portal/views/camera.py) -/

/-- Outcome of CameraConfigView.validate_form: rejected with the flashed
pair of 1-based GCP indices (return False after flash, line 76), rejected
because a required field is unset (return False, line 79), or delegated
to the parent class validate_form (line 81), whose outcome is carried by
the form model. -/
inductive ValidateResult where
  | rejected (i j : ℕ)
  | rejectedRequired
  | delegated (ok : Bool)
deriving DecidableEq, Repr

/-- The submitted form as validate_form observes it.
submitted models is_form_submitted(); missingRequired models the outcome
of the required-field loop over the mapped model attributes (an external
SQLAlchemy mapper, abstracted to its Boolean result prevent_submit);
dstX i and dstY i model the form fields gcps_dst_i_x and gcps_dst_i_y,
none when the attribute is absent; superOk models the outcome of the
parent validate_form. -/
structure CCForm where
  submitted : Bool
  missingRequired : Bool
  dstX : Fin 4 → Option ℚ
  dstY : Fin 4 → Option ℚ
  superOk : Bool

/-- Squared Euclidean distance, the quantity under the square root at
line 73 of camera.py. -/
def sqDist (p q : ℚ × ℚ) : ℚ :=
  (p.1 - q.1) ^ 2 + (p.2 - q.2) ^ 2

/-- Destination GCP list gathered by the loop at lines 66-69: index i
contributes a point exactly when both of its form fields exist. -/
def gcpsOf (f : CCForm) : List (ℚ × ℚ) :=
  (List.finRange 4).filterMap (fun i =>
    match f.dstX i, f.dstY i with
    | some a, some b => some (a, b)
    | _, _ => none)

/-- Ordered pairs (i, j) with i < j < n, in the visit order of the nested
loops at lines 71-72 of camera.py. -/
def allPairs (n : ℕ) : List (ℕ × ℕ) :=
  (List.range n).flatMap (fun i => (List.range' (i + 1) (n - (i + 1))).map (fun j => (i, j)))

/-- First pair of destination GCPs whose separation exceeds 25 meters, in
loop order; the source compares sqrt of the squared distance against 25,
equivalently the squared distance against 625. -/
def firstViolation (g : List (ℚ × ℚ)) : Option (ℕ × ℕ) :=
  (allPairs g.length).find? (fun p => decide (625 < sqDist (g.getD p.1 (0, 0)) (g.getD p.2 (0, 0))))

/-- Embedding of CameraConfigView.validate_form (camera.py lines 51-81).
The distance check runs only on a submitted form that carries the field
gcps_dst_0_x and whose required-field loop raised no error; it rejects at
the first over-distant pair, flashing the 1-based indices of the pair. -/
def validate_form (f : CCForm) : ValidateResult :=
  if f.submitted then
    if (f.dstX 0).isSome && !f.missingRequired then
      match firstViolation (gcpsOf f) with
      | some (i, j) => ValidateResult.rejected (i + 1) (j + 1)
      | none =>
        if f.missingRequired then ValidateResult.rejectedRequired
        else ValidateResult.delegated f.superOk
    else
      if f.missingRequired then ValidateResult.rejectedRequired
      else ValidateResult.delegated f.superOk
  else ValidateResult.delegated f.superOk

/-! ### Effect traces and the store model

Each pipeline stage is embedded as the sequence of storage effects it
performs, in program order. Applying a prefix of the trace models a run
that raises an exception at the first omitted effect; applying the whole
trace models the success path. -/

/-- One storage effect of a pipeline stage. Img is the in-memory image
payload type. downloadFile creates a local scratch copy of a bucket
object; putObject uploads an in-memory buffer; writeLocal models the
library writers that create a local file (to_geotiff, to_netcdf);
uploadLocal uploads a local file under a key; removeLocal models
os.remove; postNotify models the requests.post call. -/
inductive Effect (Img : Type) where
  | downloadFile (bucket key localName : String)
  | putObject (bucket key : String) (body : Img)
  | writeLocal (localName : String)
  | uploadLocal (bucket localName key : String)
  | removeLocal (localName : String)
  | postNotify (url : String)
deriving DecidableEq, Repr

/-- Observable storage state: the set of (bucket, key) objects present in
the object store, and the set of local scratch files present on disk. -/
structure Store where
  objects : List (String × String)
  locals : List String
deriving DecidableEq, Repr

/-- Create a local file: a no-op when the name is already present. -/
def insertLocal (l : String) (ls : List String) : List String :=
  if l ∈ ls then ls else l :: ls

/-- Transition of the store under one effect. postNotify does not touch
the store; no effect of any stage ever deletes a bucket object. -/
def applyEffect {Img : Type} (s : Store) (e : Effect Img) : Store :=
  match e with
  | Effect.downloadFile _ _ localName => { s with locals := insertLocal localName s.locals }
  | Effect.putObject b k _ => { s with objects := (b, k) :: s.objects }
  | Effect.writeLocal localName => { s with locals := insertLocal localName s.locals }
  | Effect.uploadLocal b _ k => { s with objects := (b, k) :: s.objects }
  | Effect.removeLocal localName => { s with locals := s.locals.erase localName }
  | Effect.postNotify _ => s

/-- Run a trace of effects from a starting store. -/
def runTrace {Img : Type} (s : Store) (tr : List (Effect Img)) : Store :=
  tr.foldl applyEffect s

/-- The put effects of a trace, in trace order, with their payloads. -/
def putEvents {Img : Type} : List (Effect Img) → List (String × String × Img)
  | [] => []
  | Effect.putObject b k body :: r => (b, k, body) :: putEvents r
  | _ :: r => putEvents r

/-! ### Movies and camera configurations as the pipeline stages read them -/

/-- The fully populated camera_config the frame stages read. -/
structure CameraConfigF where
  lensParameters : List ℚ
  lensPosition : ℚ × ℚ × ℚ
  gcps : GcpsD
  aoiGeom : List (ℚ × ℚ)
  siteCrs : ℕ
  resolution : ℚ
deriving DecidableEq, Repr

/-- The movie dictionary as extract_frames and extract_project_frames
read it: bucket and identifier of the stored movie file, the movie id
used in the completion notification, the actual water level h_a, and the
camera_config. -/
structure MovieE where
  bucket : String
  identifier : String
  movieId : String
  h_a : ℚ
  camera_config : CameraConfigF
deriving DecidableEq, Repr

def jpgExt : String := ".jpg"
def tifExt : String := ".tif"
def tempTif : String := "temp.tif"
def tempNC : String := "temp.nc"
def colsVar : String := "cols"
def notifyBase : String := "http://portal/api/processing/extract_frames/"

/-- Destination key of frame n decoded at t seconds, exactly the format
template of tasks.py lines 57 and 100: prefix, 4-digit zero-padded frame
number, 6-digit zero-padded millisecond offset int(t * 1000), extension. -/
def frameKey (pfx : String) (n : ℕ) (t : ℚ) (ext : String) : String :=
  pfx ++ "_" ++ padZeros 4 (toString n) ++ "_" ++ pyFmtInt 6 (pyInt (t * 1000)) ++ ext

/-! ### extract_frames (tasks.py lines 35-72) -/

/-- The per-frame loop of extract_frames (lines 55-66): for each decoded
(t, img) pair in decode order, one putObject of the encoded frame under
its key, with the frame counter n incremented per frame. -/
def framesPutsLoop {Img : Type} (pfx bucket : String) : ℕ → List (ℚ × Img) → List (Effect Img)
  | _, [] => []
  | n, (t, img) :: rest =>
      Effect.putObject bucket (frameKey pfx n t jpgExt) img :: framesPutsLoop pfx bucket (n + 1) rest

/-- extract_frames up to and including the scratch-file removal at line
68: download the movie into a local file of the same name, write every
frame, remove the local movie file. frames is the decoded (time, image)
sequence produced by OpenRiverCam.io.frames on the downloaded file. -/
def extract_framesCore {Img : Type} (m : MovieE) (frames : List (ℚ × Img)) (pfx : String) :
    List (Effect Img) :=
  Effect.downloadFile m.bucket m.identifier m.identifier
    :: (framesPutsLoop pfx m.bucket 0 frames ++ [Effect.removeLocal m.identifier])

/-- Whole effect trace of extract_frames: the core followed by the
completion notification POST of line 71, which is its final action. -/
def extract_frames {Img : Type} (m : MovieE) (frames : List (ℚ × Img)) (pfx : String) :
    List (Effect Img) :=
  extract_framesCore m frames pfx ++ [Effect.postNotify (notifyBase ++ m.movieId)]

/-! ### extract_project_frames (tasks.py lines 75-130) -/

/-- Arguments of one OpenRiverCam.cv.orthorectification call as issued at
lines 107-114. -/
structure OrthoCall (Img : Type) where
  img : Img
  lensPosition : ℚ × ℚ × ℚ
  h_a : ℚ
  bbox : List (ℚ × ℚ)
  resolution : ℚ
  gcps : GcpsD
deriving DecidableEq, Repr

/-- The orthorectification calls extract_project_frames issues, one per
decoded frame in decode order. The resolution argument is the literal
0.01 of line 112, not a value read from the camera_config. -/
def projOrthoCalls {Img : Type} (cfg : CameraConfigF) (ha : ℚ) : List (ℚ × Img) → List (OrthoCall Img)
  | [] => []
  | (_, img) :: rest =>
      { img := img, lensPosition := cfg.lensPosition, h_a := ha, bbox := cfg.aoiGeom,
        resolution := 1 / 100, gcps := cfg.gcps } :: projOrthoCalls cfg ha rest

/-- The per-frame storage effects of extract_project_frames (lines
96-126): each frame is written to the local scratch file temp.tif by
to_geotiff and then uploaded under its destination key. -/
def projLoop {Img : Type} (pfx bucket : String) : ℕ → List (ℚ × Img) → List (Effect Img)
  | _, [] => []
  | n, (t, _) :: rest =>
      Effect.writeLocal tempTif
        :: Effect.uploadLocal bucket tempTif (frameKey pfx n t tifExt)
        :: projLoop pfx bucket (n + 1) rest

/-- Whole effect trace of extract_project_frames: download the movie,
run the per-frame loop, remove the local movie file (line 128). No
effect ever removes temp.tif. -/
def extract_project_frames {Img : Type} (m : MovieE) (frames : List (ℚ × Img)) (pfx : String) :
    List (Effect Img) :=
  Effect.downloadFile m.bucket m.identifier m.identifier
    :: (projLoop pfx m.bucket 0 frames ++ [Effect.removeLocal m.identifier])

/-! ### Scratch-file traces of the remaining stages -/

/-- Local-file effects of the success path of compute_piv (lines
286-288): write temp.nc, upload it, remove it. -/
def compute_pivScratchTrace {Img : Type} (bucket fileId : String) : List (Effect Img) :=
  [Effect.writeLocal tempNC, Effect.uploadLocal bucket tempNC fileId, Effect.removeLocal tempNC]

/-- Effect trace of filter_piv (lines 352-394): download into temp.nc,
remove it after filtering, write the filtered dataset to temp.nc, upload
it, remove it. -/
def filter_piv {Img : Type} (bucket fn : String) : List (Effect Img) :=
  [Effect.downloadFile bucket fn tempNC, Effect.removeLocal tempNC, Effect.writeLocal tempNC,
   Effect.uploadLocal bucket tempNC ("velocity_filter.nc"), Effect.removeLocal tempNC]

/-- Effect trace of compute_q (lines 293-349): download into temp.nc,
overwrite it twice with the two result datasets, upload each, remove it
once at the end. -/
def compute_q {Img : Type} (bucket fn : String) : List (Effect Img) :=
  [Effect.downloadFile bucket fn tempNC, Effect.writeLocal tempNC,
   Effect.uploadLocal bucket tempNC ("q_depth.nc"), Effect.writeLocal tempNC,
   Effect.uploadLocal bucket tempNC ("Q.nc"), Effect.removeLocal tempNC]

/-! ### compute_piv (tasks.py lines 166-290) -/

/-- A stored object of the bucket listing: its key and its decoded
raster content. -/
structure S3Obj (Img : Type) where
  key : String
  content : Img
deriving DecidableEq, Repr

/-- Result of one OpenRiverCam.piv.piv call (line 238): the column and
row pixel-coordinate grids of the interrogation mesh and the four
per-cell result grids, the latter kept abstract (type A). -/
structure PivOut (A : Type) where
  cols : List (List ℚ)
  rows : List (List ℚ)
  vx : A
  vy : A
  s2n : A
  corr : A
deriving DecidableEq, Repr

/-- Result of OpenRiverCam.io.convert_cols_rows (line 254): projected
x, y and geographic lon, lat grids derived from the GeoTIFF transform of
the file it reads together with the cols and rows grids. -/
structure ConvOut where
  xs : List (List ℚ)
  ys : List (List ℚ)
  lons : List (List ℚ)
  lats : List (List ℚ)
deriving DecidableEq, Repr

/-- Arguments of one OpenRiverCam.piv.piv call as issued at lines
238-245: the two frames of the pair, the resolution passed for both
axes, and the pair time difference dt in seconds. -/
structure PivCall (Img : Type) where
  frame_a : Img
  frame_b : Img
  res_x : ℚ
  res_y : ℚ
  dt : ℚ
deriving DecidableEq, Repr

/-- Final state of the frame-pair loop of compute_piv (lines 222-247):
the PIV calls issued, the four appended result lists, the appended
timestamps, and the cols and rows grids left bound by the last call
(none when no call happened, so that a later read of cols raises
NameError). -/
structure PivLoopOut (Img A : Type) where
  calls : List (PivCall Img)
  vxs : List A
  vys : List A
  s2ns : List A
  corrs : List A
  times : List ℚ
  colsrows : Option (List (List ℚ) × List (List ℚ))
deriving DecidableEq, Repr

/-- The frame-pair loop of compute_piv. The first argument of the match
is the carried (frame_b, ms) of the previous iteration (None on entry);
each listed object has its millisecond offset parsed from its key, and a
PIV call is issued for every iteration that has a previous frame, with
dt the difference of the two offsets in seconds and the appended
timestamp start_time + ms. -/
def pivLoop {Img A : Type} (pivK : Img → Img → ℚ → ℚ → ℚ → PivOut A) (res t0 : ℚ) :
    Option (Img × ℚ) → List (S3Obj Img) → PivLoopOut Img A
  | _, [] =>
      { calls := [], vxs := [], vys := [], s2ns := [], corrs := [], times := [], colsrows := none }
  | none, fn :: rest => pivLoop pivK res t0 (some (fn.content, (msOfKey fn.key : ℚ))) rest
  | some (fa, pms), fn :: rest =>
      let ms : ℚ := (msOfKey fn.key : ℚ)
      let dt := (ms - pms) / 1000
      let out := pivK fa fn.content res res dt
      let restOut := pivLoop pivK res t0 (some (fn.content, ms)) rest
      { calls := { frame_a := fa, frame_b := fn.content, res_x := res, res_y := res, dt := dt }
          :: restOut.calls,
        vxs := out.vx :: restOut.vxs,
        vys := out.vy :: restOut.vys,
        s2ns := out.s2n :: restOut.s2ns,
        corrs := out.corr :: restOut.corrs,
        times := (t0 + ms / 1000) :: restOut.times,
        colsrows := some (restOut.colsrows.getD (out.cols, out.rows)) }

/-- The VelocityGrid dataset assembled by OpenRiverCam.io.to_dataset
(lines 273-284): one set of local axes x, y, one set of projected and
geographic coordinate grids, the list of timestamps, and the four result
variables as per-timestamp lists. The coordinate fields are stored once
for the whole dataset: every timestamp shares them. -/
structure Dataset (A : Type) where
  x : List ℚ
  y : List ℚ
  xs : List (List ℚ)
  ys : List (List ℚ)
  lons : List (List ℚ)
  lats : List (List ℚ)
  times : List ℚ
  v_x : List A
  v_y : List A
  s2n : List A
  corr : List A
deriving DecidableEq, Repr

/-- The grid geometry of a dataset: local axes and geographic per-cell
coordinates. -/
structure GridGeom where
  x : List ℚ
  y : List ℚ
  lats : List (List ℚ)
  lons : List (List ℚ)
deriving DecidableEq, Repr

/-- Grid geometry carried by time step i of a dataset. to_dataset
attaches a single coordinate set shared by all time indices, so the
result does not depend on i. -/
def geomAtTime {A : Type} (ds : Dataset A) : ℕ → GridGeom :=
  fun _ => { x := ds.x, y := ds.y, lats := ds.lats, lons := ds.lons }

/-- The movie dictionary as compute_piv reads it: the bucket listing in
key order, the parsed capture start timestamp in seconds, and the
resolution field of its camera_config (line 206). -/
structure MovieP (Img : Type) where
  objects : List (S3Obj Img)
  startTime : ℚ
  resolution : ℚ
deriving DecidableEq, Repr

/-- The S3 listing filter objects.filter(Prefix=prefix) of line 217:
keeps the objects whose key starts with the prefix (stated on the
character lists of the two strings). -/
def keyHasPfx {Img : Type} (pfx : String) (o : S3Obj Img) : Bool :=
  pfx.toList.isPrefixOf o.key.toList

/-- Embedding of compute_piv (tasks.py lines 166-290). pivK stands for
OpenRiverCam.piv.piv and convert for OpenRiverCam.io.convert_cols_rows.
The listing is filtered by the configured prefix (line 217); the
frame-pair loop runs; then the transform is read back from the first
listed file (line 249) and the local axes are built from the mesh
spacing (lines 257-270). When the loop issued no PIV call, the local
variable cols was never assigned, and its first read raises NameError
(line 254 when a first file exists, line 257 otherwise) - rendered as
Except.error (unboundLocal cols). The nested matches render the numpy
index errors a malformed mesh would raise; they are unreachable for the
rectangular meshes the PIV kernel returns. -/
def compute_piv {Img A : Type} (pivK : Img → Img → ℚ → ℚ → ℚ → PivOut A)
    (convert : Img → List (List ℚ) → List (List ℚ) → ConvOut)
    (m : MovieP Img) (pfx : String) : Except PyError (Dataset A) :=
  let resolution := m.resolution
  let fns := m.objects.filter (keyHasPfx pfx)
  let st := pivLoop pivK resolution m.startTime none fns
  match st.colsrows, fns with
  | some (cols, rows), f0 :: _ =>
    let conv := convert f0.content cols rows
    match cols, rows with
    | c0 :: _, _ :: _ :: _ =>
      match c0 with
      | _ :: _ :: _ =>
        let sx := diff0 c0
        let sy := diff0 (colHead rows)
        let x := linspace (resolution / 2 * sx) (((c0.length : ℚ) - 1 / 2) * resolution * sx)
          c0.length
        let y := (linspace (resolution / 2 * sy) (((rows.length : ℚ) - 1 / 2) * resolution * sy)
          rows.length).reverse
        Except.ok { x := x, y := y, xs := conv.xs, ys := conv.ys, lons := conv.lons,
                    lats := conv.lats, times := st.times, v_x := st.vxs, v_y := st.vys,
                    s2n := st.s2ns, corr := st.corrs }
      | _ => Except.error PyError.indexError
    | _, _ => Except.error PyError.indexError
  | _, _ => Except.error (PyError.unboundLocal colsVar)

/-- The PIV calls compute_piv issues for a movie: the calls of the
frame-pair loop run on the prefix-filtered bucket listing. -/
def computePivCalls {Img A : Type} (pivK : Img → Img → ℚ → ℚ → ℚ → PivOut A)
    (m : MovieP Img) (pfx : String) : List (PivCall Img) :=
  (pivLoop pivK m.resolution m.startTime none
    (m.objects.filter (keyHasPfx pfx))).calls

/-! ### Auxiliary forms of the loop data, used to state the pairing law -/

/-- The (content, millisecond offset) pair the loop derives from a listed
object: the carried frame and the offset parsed from its key. -/
def pairOf {Img : Type} (fn : S3Obj Img) : Img × ℚ :=
  (fn.content, (msOfKey fn.key : ℚ))

/-- The PIV call issued for a previous and a current (content, ms) pair:
both frames, the movie resolution on both axes, and dt as the offset
difference in seconds. -/
def mkPivCall {Img : Type} (res : ℚ) (p q : Img × ℚ) : PivCall Img :=
  { frame_a := p.1, frame_b := q.1, res_x := res, res_y := res, dt := (q.2 - p.2) / 1000 }

/-! ### Concrete inputs used by the witness and counterexample theorems -/

/-- A camera configuration whose target resolution is 0.05, distinct from
the hardcoded projection resolution 0.01. -/
def cfg05 : CameraConfigF :=
  { lensParameters := [], lensPosition := (0, 0, 0), gcps := { src := [], dst := [] },
    aoiGeom := [], siteCrs := 32633, resolution := 1 / 20 }

/-- A movie carrying cfg05. -/
def movie05 : MovieE :=
  { bucket := "examplevideo", identifier := "movie.mp4", movieId := "1", h_a := 0,
    camera_config := cfg05 }

/-- A movie used for the storage-trace witnesses. -/
def movieW : MovieE :=
  { bucket := "examplevideo", identifier := "movie.mp4", movieId := "2", h_a := 0,
    camera_config := cfg05 }

/-- A rectified-frame object at offset 0 ms. -/
def objW0 : S3Obj ℕ := { key := "proj_0000_000000.tif", content := 3 }

/-- A rectified-frame object at offset 100 ms. -/
def objW1 : S3Obj ℕ := { key := "proj_0001_000100.tif", content := 4 }

/-- A movie whose bucket lists a single rectified frame. -/
def mPiv1 : MovieP ℕ := { objects := [objW0], startTime := 0, resolution := 1 / 100 }

/-- A movie whose bucket lists two rectified frames. -/
def mPiv2 : MovieP ℕ := { objects := [objW0, objW1], startTime := 0, resolution := 1 / 100 }

/-- A PIV kernel stand-in returning a fixed 1 x 2 interrogation mesh. -/
def pivKW : ℕ → ℕ → ℚ → ℚ → ℚ → PivOut ℕ :=
  fun _ _ _ _ _ => { cols := [[0, 1]], rows := [[0], [2]], vx := 0, vy := 0, s2n := 0, corr := 0 }

/-- A coordinate-conversion stand-in whose output depends on the file it
reads, so that the derived-from-first-file conclusion is not vacuous. -/
def convW : ℕ → List (List ℚ) → List (List ℚ) → ConvOut :=
  fun i c r => { xs := c, ys := r, lons := [[(i : ℚ)]], lats := [[(i : ℚ) + 1]] }

/-- A submitted camera-config form carrying two destination GCPs 30
meters apart. -/
def wForm : CCForm :=
  { submitted := true, missingRequired := false,
    dstX := fun i => if i.val = 0 then some 0 else if i.val = 1 then some 30 else none,
    dstY := fun i => if i.val ≤ 1 then some 0 else none,
    superOk := true }

/-- A complete camera_config dictionary for the AOI witnesses. -/
def cfgAoi : CameraConfigD ℕ :=
  { gcps := some { src := [(0, 0)], dst := [(1, 1)] }, corners := some [(2, 2)],
    site := some { crs := 32633 }, aoiBbox := none }

/-- A camera_config dictionary missing its gcps key. -/
def cfgAoiNoGcps : CameraConfigD ℕ :=
  { gcps := none, corners := some [(2, 2)], site := some { crs := 32633 }, aoiBbox := none }

/-- AOI-solve stand-in. -/
def cvW : List (ℚ × ℚ) → List (ℚ × ℚ) → List (ℚ × ℚ) → List (ℚ × ℚ) :=
  fun _ dst _ => dst

/-- Geojson-encoding stand-in. -/
def tgW : List (ℚ × ℚ) → String → ℕ :=
  fun poly crs => poly.length + crs.length

/-! ### Helper lemmas -/

theorem mem_allPairs {n i j : ℕ} : (i, j) ∈ allPairs n ↔ i < j ∧ j < n := by
  simp only [allPairs, List.mem_flatMap, List.mem_map, List.mem_range]
  constructor
  · rintro ⟨a, ha, jb, hjb, heq⟩
    obtain ⟨k, hk, rfl⟩ := List.mem_range'.1 hjb
    injection heq with h1 h2
    omega
  · rintro ⟨hij, hjn⟩
    exact ⟨i, by omega, j, List.mem_range'.2 ⟨j - (i + 1), by omega, by omega⟩, rfl⟩

/-! ### C10: GCP pairwise-distance check of the camera-config form -/

/-- C10: on a submitted form that carries the first destination-GCP field
and whose required-field pass raised no error, validate_form returns
False (flashing the offending pair) whenever two gathered destination
GCPs lie more than 25 meters apart in squared Euclidean distance, and
otherwise falls through to the parent validation. -/
theorem validate_form_gcp_distance (f : CCForm) (hs : f.submitted = true)
    (hm : f.missingRequired = false) (h0 : (f.dstX 0).isSome = true) :
    ((∃ i j, i < j ∧ j < (gcpsOf f).length ∧
        625 < sqDist ((gcpsOf f).getD i (0, 0)) ((gcpsOf f).getD j (0, 0))) →
      ∃ i j, validate_form f = ValidateResult.rejected i j)
    ∧ ((∀ i j, i < j → j < (gcpsOf f).length →
        sqDist ((gcpsOf f).getD i (0, 0)) ((gcpsOf f).getD j (0, 0)) ≤ 625) →
      validate_form f = ValidateResult.delegated f.superOk) := by
  constructor
  · rintro ⟨i, j, hij, hjl, hd⟩
    have hv : (firstViolation (gcpsOf f)).isSome := by
      rw [firstViolation, List.find?_isSome]
      exact ⟨(i, j), mem_allPairs.2 ⟨hij, hjl⟩, by simpa using hd⟩
    obtain ⟨⟨a, b⟩, hab⟩ := Option.isSome_iff_exists.1 hv
    refine ⟨a + 1, b + 1, ?_⟩
    simp [validate_form, hs, hm, h0, hab]
  · intro hall
    have hv : firstViolation (gcpsOf f) = none := by
      rw [firstViolation, List.find?_eq_none]
      rintro ⟨a, b⟩ hmem
      have hab := mem_allPairs.1 hmem
      simpa using not_lt.2 (hall a b hab.1 hab.2)
    simp [validate_form, hs, hm, h0, hv]

/-- C10 witness: the hypotheses hold of the concrete form wForm, and the
theorem applies to it. -/
theorem validate_form_gcp_distance_witness :
    (wForm.submitted = true) ∧ (wForm.missingRequired = false)
    ∧ ((wForm.dstX 0).isSome = true)
    ∧ (((∃ i j, i < j ∧ j < (gcpsOf wForm).length ∧
          625 < sqDist ((gcpsOf wForm).getD i (0, 0)) ((gcpsOf wForm).getD j (0, 0))) →
        ∃ i j, validate_form wForm = ValidateResult.rejected i j)
      ∧ ((∀ i j, i < j → j < (gcpsOf wForm).length →
          sqDist ((gcpsOf wForm).getD i (0, 0)) ((gcpsOf wForm).getD j (0, 0)) ≤ 625) →
        validate_form wForm = ValidateResult.delegated wForm.superOk)) :=
  ⟨rfl, rfl, by decide, validate_form_gcp_distance wForm rfl rfl (by decide)⟩

/-! ### C8: idempotence of get_aoi -/

/-- C8: two get_aoi invocations on configurations with identical gcps,
corners and site blocks produce identical bounding polygons, and running
get_aoi again on a returned configuration (which already carries an aoi
bbox) replaces the bbox with the same value, returning the configuration
unchanged. -/
theorem get_aoi_idempotent {G : Type}
    (cv : List (ℚ × ℚ) → List (ℚ × ℚ) → List (ℚ × ℚ) → List (ℚ × ℚ))
    (tg : List (ℚ × ℚ) → String → G) (c1 c2 : CameraConfigD G)
    (hg : c1.gcps = c2.gcps) (hc : c1.corners = c2.corners) (hst : c1.site = c2.site)
    (h1 : c1.gcps.isSome = true) (h2 : c1.corners.isSome = true) (h3 : c1.site.isSome = true) :
    (∃ r1 r2, (get_aoi cv tg c1).2 = Except.ok r1 ∧ (get_aoi cv tg c2).2 = Except.ok r2 ∧
      r1.aoiBbox = r2.aoiBbox ∧ r1.aoiBbox.isSome = true)
    ∧ (∀ r1, (get_aoi cv tg c1).2 = Except.ok r1 → (get_aoi cv tg r1).2 = Except.ok r1) := by
  obtain ⟨og1, oc1, os1, oa1⟩ := c1
  obtain ⟨og2, oc2, os2, oa2⟩ := c2
  simp only at hg hc hst h1 h2 h3
  subst hg hc hst
  obtain ⟨g, rfl⟩ := Option.isSome_iff_exists.1 h1
  obtain ⟨c, rfl⟩ := Option.isSome_iff_exists.1 h2
  obtain ⟨s, rfl⟩ := Option.isSome_iff_exists.1 h3
  constructor
  · exact ⟨_, _, rfl, rfl, rfl, rfl⟩
  · intro r1 hr1
    have hval : (get_aoi cv tg (⟨some g, some c, some s, oa1⟩ : CameraConfigD G)).2
        = Except.ok (⟨some g, some c, some s,
            some (tg (cv g.src g.dst c) (epsgTag ++ toString s.crs))⟩ : CameraConfigD G) := rfl
    rw [hval] at hr1
    injection hr1 with h
    subst h
    rfl

/-- C8 witness: the hypotheses hold of the concrete configuration
cfgAoi (compared with itself), and the theorem applies to it. -/
theorem get_aoi_idempotent_witness :
    (cfgAoi.gcps.isSome = true) ∧ (cfgAoi.corners.isSome = true) ∧ (cfgAoi.site.isSome = true)
    ∧ ((∃ r1 r2, (get_aoi cvW tgW cfgAoi).2 = Except.ok r1 ∧ (get_aoi cvW tgW cfgAoi).2 = Except.ok r2 ∧
        r1.aoiBbox = r2.aoiBbox ∧ r1.aoiBbox.isSome = true)
      ∧ (∀ r1, (get_aoi cvW tgW cfgAoi).2 = Except.ok r1 → (get_aoi cvW tgW r1).2 = Except.ok r1)) :=
  ⟨rfl, rfl, rfl, get_aoi_idempotent cvW tgW cfgAoi cfgAoi rfl rfl rfl rfl rfl rfl⟩

/-! ### C9: get_aoi on a configuration with a missing key -/

/-- C9: when gcps, corners or site is missing from the camera_config,
get_aoi logs a configuration error naming the missing field and returns
no configuration carrying an AOI polygon: the dictionary access raises,
so the pipeline cannot proceed for that movie. -/
theorem get_aoi_missing_key {G : Type}
    (cv : List (ℚ × ℚ) → List (ℚ × ℚ) → List (ℚ × ℚ) → List (ℚ × ℚ))
    (tg : List (ℚ × ℚ) → String → G) (cfg : CameraConfigD G)
    (h : cfg.gcps = none ∨ cfg.corners = none ∨ cfg.site = none) :
    (∃ e, (get_aoi cv tg cfg).2 = Except.error e)
    ∧ (cfg.gcps = none → gcpsMissingMsg ∈ (get_aoi cv tg cfg).1)
    ∧ (cfg.corners = none → cornersMissingMsg ∈ (get_aoi cv tg cfg).1)
    ∧ (cfg.site = none → siteMissingMsg ∈ (get_aoi cv tg cfg).1) := by
  obtain ⟨og, oc, os, oa⟩ := cfg
  cases og <;> cases oc <;> cases os <;> simp_all [get_aoi]

/-- C9 witness: the hypothesis holds of the concrete configuration
cfgAoiNoGcps, and the theorem applies to it. -/
theorem get_aoi_missing_key_witness :
    (cfgAoiNoGcps.gcps = none ∨ cfgAoiNoGcps.corners = none ∨ cfgAoiNoGcps.site = none)
    ∧ ((∃ e, (get_aoi cvW tgW cfgAoiNoGcps).2 = Except.error e)
      ∧ (cfgAoiNoGcps.gcps = none → gcpsMissingMsg ∈ (get_aoi cvW tgW cfgAoiNoGcps).1)
      ∧ (cfgAoiNoGcps.corners = none → cornersMissingMsg ∈ (get_aoi cvW tgW cfgAoiNoGcps).1)
      ∧ (cfgAoiNoGcps.site = none → siteMissingMsg ∈ (get_aoi cvW tgW cfgAoiNoGcps).1)) :=
  ⟨Or.inl rfl, get_aoi_missing_key cvW tgW cfgAoiNoGcps (Or.inl rfl)⟩

/-! ### Trace lemmas for the storage model -/

theorem putEvents_append {Img : Type} (a b : List (Effect Img)) :
    putEvents (a ++ b) = putEvents a ++ putEvents b := by
  induction a with
  | nil => rfl
  | cons e r ih => cases e <;> simp [putEvents, ih]

theorem putEvents_framesPutsLoop {Img : Type} (pfx b : String) (fs : List (ℚ × Img)) :
    ∀ n : ℕ, putEvents (framesPutsLoop pfx b n fs)
      = List.zipWith (fun i tf => (b, frameKey pfx i tf.1 jpgExt, tf.2))
          (List.range' n fs.length) fs := by
  induction fs with
  | nil => intro n; rfl
  | cons tf rest ih =>
    intro n
    simp only [framesPutsLoop, putEvents, List.length_cons, List.range'_succ, List.zipWith_cons_cons]
    rw [ih (n + 1)]

theorem runTrace_append {Img : Type} (s : Store) (a b : List (Effect Img)) :
    runTrace s (a ++ b) = runTrace (runTrace s a) b := by
  simp [runTrace]

theorem applyEffect_objects_mono {Img : Type} (s : Store) (e : Effect Img) (p : String × String)
    (h : p ∈ s.objects) : p ∈ (applyEffect s e).objects := by
  cases e <;> simp only [applyEffect] <;>
    first
    | exact h
    | exact List.mem_cons_of_mem _ h

theorem runTrace_objects_mono {Img : Type} (tr : List (Effect Img)) :
    ∀ (s : Store) (p : String × String), p ∈ s.objects → p ∈ (runTrace s tr).objects := by
  induction tr with
  | nil => intro s p h; exact h
  | cons e r ih => intro s p h; exact ih _ p (applyEffect_objects_mono s e p h)

theorem framesPutsLoop_mem {Img : Type} (pfx b : String) (fs : List (ℚ × Img)) :
    ∀ (s : Store) (n i : ℕ) (h : i < fs.length),
      (b, frameKey pfx (n + i) (fs.get ⟨i, h⟩).1 jpgExt)
        ∈ (runTrace s (framesPutsLoop pfx b n fs)).objects := by
  induction fs with
  | nil => intro s n i h; exact absurd h (by simp)
  | cons tf rest ih =>
    intro s n i h
    cases i with
    | zero =>
      have hmem : (b, frameKey pfx n tf.1 jpgExt)
          ∈ (applyEffect s (Effect.putObject b (frameKey pfx n tf.1 jpgExt) tf.2)).objects := by
        simp [applyEffect]
      have hrun := runTrace_objects_mono (framesPutsLoop pfx b (n + 1) rest) _ _ hmem
      simp only [Nat.add_zero]
      exact hrun
    | succ i =>
      have hrun := ih (applyEffect s (Effect.putObject b (frameKey pfx n tf.1 jpgExt) tf.2))
        (n + 1) i (Nat.lt_of_succ_lt_succ h)
      have hn : (n + 1) + i = n + (i + 1) := by omega
      rw [hn] at hrun
      exact hrun

theorem framesPutsLoop_locals {Img : Type} (pfx b : String) (fs : List (ℚ × Img)) :
    ∀ (s : Store) (n : ℕ), (runTrace s (framesPutsLoop pfx b n fs)).locals = s.locals := by
  induction fs with
  | nil => intro s n; rfl
  | cons tf rest ih =>
    intro s n
    show (runTrace (applyEffect s (Effect.putObject b (frameKey pfx n tf.1 jpgExt) tf.2))
      (framesPutsLoop pfx b (n + 1) rest)).locals = s.locals
    rw [ih]
    rfl

theorem insertLocal_mem (l : String) (ls : List String) : l ∈ insertLocal l ls := by
  unfold insertLocal
  split
  · assumption
  · exact List.mem_cons_self _ _

theorem insertLocal_idem (l : String) (ls : List String) :
    insertLocal l (insertLocal l ls) = insertLocal l ls := by
  rw [insertLocal, if_pos (insertLocal_mem l ls)]

theorem projLoop_locals {Img : Type} (pfx b : String) (fs : List (ℚ × Img)) :
    ∀ (s : Store) (n : ℕ), (runTrace s (projLoop pfx b n fs)).locals
      = if fs.isEmpty then s.locals else insertLocal tempTif s.locals := by
  induction fs with
  | nil => intro s n; rfl
  | cons tf rest ih =>
    intro s n
    show (runTrace (applyEffect (applyEffect s (Effect.writeLocal tempTif))
        (Effect.uploadLocal b tempTif (frameKey pfx n tf.1 tifExt)))
      (projLoop pfx b (n + 1) rest)).locals = _
    rw [ih]
    cases rest with
    | nil => simp [applyEffect]
    | cons tf2 rest2 => simp [applyEffect, insertLocal_idem]

theorem runTrace_nil {Img : Type} (s : Store) : runTrace s ([] : List (Effect Img)) = s := rfl

theorem runTrace_cons {Img : Type} (s : Store) (e : Effect Img) (tr : List (Effect Img)) :
    runTrace s (e :: tr) = runTrace (applyEffect s e) tr := rfl

theorem runTrace_singleton {Img : Type} (s : Store) (e : Effect Img) :
    runTrace s [e] = applyEffect s e := rfl

theorem locals_postNotify {Img : Type} (s : Store) (u : String) :
    (applyEffect s (Effect.postNotify u : Effect Img)).locals = s.locals := rfl

theorem locals_removeLocal {Img : Type} (s : Store) (l : String) :
    (applyEffect s (Effect.removeLocal l : Effect Img)).locals = s.locals.erase l := rfl

theorem locals_downloadFile {Img : Type} (s : Store) (b k l : String) :
    (applyEffect s (Effect.downloadFile b k l : Effect Img)).locals = insertLocal l s.locals := rfl

/-! ### C5: frame artifacts written by extract_frames -/

/-- C5: extract_frames puts exactly one object per decoded frame, in
decode order, numbered sequentially from 0, each under the key
prefix_NNNN_MMMMMM.jpg with MMMMMM the decode-time offset in
milliseconds truncated to an integer. -/
theorem extract_frames_artifacts {Img : Type} (m : MovieE) (frames : List (ℚ × Img))
    (pfx : String) :
    putEvents (extract_frames m frames pfx)
      = List.zipWith (fun i tf => (m.bucket, frameKey pfx i tf.1 jpgExt, tf.2))
          (List.range frames.length) frames := by
  rw [extract_frames, putEvents_append, List.range_eq_range']
  show putEvents (framesPutsLoop pfx m.bucket 0 frames ++ [Effect.removeLocal m.identifier])
      ++ putEvents [Effect.postNotify (notifyBase ++ m.movieId)] = _
  rw [putEvents_append, putEvents_framesPutsLoop]
  simp [putEvents]

/-! ### C6: the completion notification does not roll back extraction -/

/-- C6: the completion POST is the final action of extract_frames and
touches no storage: the store after the whole trace equals the store
after the trace without the notification (a run whose notification
fails), and every frame artifact written by the run is present in that
store - nothing undoes the writes. -/
theorem extract_frames_notify_no_rollback {Img : Type} (m : MovieE)
    (frames : List (ℚ × Img)) (pfx : String) (s0 : Store) :
    runTrace s0 (extract_frames m frames pfx) = runTrace s0 (extract_framesCore m frames pfx)
    ∧ ∀ (i : ℕ) (h : i < frames.length),
        (m.bucket, frameKey pfx i (frames.get ⟨i, h⟩).1 jpgExt)
          ∈ (runTrace s0 (extract_framesCore m frames pfx)).objects := by
  constructor
  · rw [extract_frames, runTrace_append, runTrace_singleton]
    rfl
  · intro i h
    show _ ∈ (runTrace s0 (Effect.downloadFile m.bucket m.identifier m.identifier
      :: (framesPutsLoop pfx m.bucket 0 frames ++ [Effect.removeLocal m.identifier]))).objects
    rw [runTrace_cons, runTrace_append]
    apply runTrace_objects_mono
    have hrun := framesPutsLoop_mem pfx m.bucket frames
      (applyEffect s0 (Effect.downloadFile m.bucket m.identifier m.identifier
        : Effect Img)) 0 i h
    simpa using hrun

/-- C6 witness: the theorem applied to a concrete movie with one decoded
frame, instantiated at frame index 0. -/
theorem extract_frames_notify_no_rollback_witness :
    runTrace { objects := [], locals := [] } (extract_frames movieW [((0 : ℚ), (42 : ℕ))] ("frame"))
      = runTrace { objects := [], locals := [] } (extract_framesCore movieW [((0 : ℚ), (42 : ℕ))] ("frame"))
    ∧ (movieW.bucket, frameKey ("frame") 0 (0 : ℚ) jpgExt)
      ∈ (runTrace { objects := [], locals := [] }
          (extract_framesCore movieW [((0 : ℚ), (42 : ℕ))] ("frame"))).objects :=
  ⟨(extract_frames_notify_no_rollback movieW [((0 : ℚ), (42 : ℕ))] ("frame")
      { objects := [], locals := [] }).1,
    (extract_frames_notify_no_rollback movieW [((0 : ℚ), (42 : ℕ))] ("frame")
      { objects := [], locals := [] }).2 0 (by decide)⟩

/-! ### C7: scratch-file cleanup -/

/-- C7 counterexample: on the success path of extract_project_frames for
a one-frame movie, the local scratch file temp.tif written by to_geotiff
is still present when the stage returns - the claim that every scratch
file is removed before the stage entry point returns is false. -/
theorem scratch_cleanup_counterexample :
    (runTrace { objects := [], locals := [] }
      (extract_project_frames movieW [((0 : ℚ), (0 : ℕ))] ("proj"))).locals = [tempTif] := by
  decide

/-- C7 amended: the movie scratch file of extract_frames and the temp.nc
of compute_piv, filter_piv and compute_q are removed on the success
path; but temp.tif of extract_project_frames survives even a successful
run, and a run interrupted before the removal step (here: a failure
right after the movie download) leaves its scratch file behind. -/
theorem scratch_cleanup_success_only {Img : Type} (m : MovieE) (frames : List (ℚ × Img))
    (pfx bucket fileId fn : String) (s0 : Store)
    (hl : s0.locals = []) (hne : frames ≠ []) (hid : m.identifier ≠ tempTif) :
    (runTrace s0 (extract_frames m frames pfx)).locals = []
    ∧ tempTif ∈ (runTrace s0 (extract_project_frames m frames pfx)).locals
    ∧ (runTrace s0 (@compute_pivScratchTrace Img bucket fileId)).locals = []
    ∧ (runTrace s0 (@filter_piv Img bucket fn)).locals = []
    ∧ (runTrace s0 (@compute_q Img bucket fn)).locals = []
    ∧ m.identifier ∈ (runTrace s0 ((extract_frames m frames pfx).take 1)).locals := by
  have hempty : frames.isEmpty = false := by
    cases frames with
    | nil => exact absurd rfl hne
    | cons a l => rfl
  refine ⟨?_, ?_, ?_, ?_, ?_, ?_⟩
  · simp only [extract_frames, extract_framesCore, runTrace_append, runTrace_cons,
      runTrace_singleton, runTrace_nil, locals_postNotify, locals_removeLocal,
      locals_downloadFile, framesPutsLoop_locals, hl]
    simp [insertLocal]
  · simp only [extract_project_frames, runTrace_cons, runTrace_append, runTrace_singleton,
      runTrace_nil, locals_removeLocal, locals_downloadFile]
    rw [List.mem_erase_of_ne (Ne.symm hid), projLoop_locals, hempty]
    simp only [Bool.false_eq_true, if_false]
    exact insertLocal_mem tempTif _
  · simp [compute_pivScratchTrace, runTrace, applyEffect, insertLocal, hl]
  · simp [filter_piv, runTrace, applyEffect, insertLocal, hl]
  · simp [compute_q, runTrace, applyEffect, insertLocal, hl]
  · simp only [extract_frames, extract_framesCore, List.cons_append, List.take_succ_cons,
      List.take_zero, runTrace_singleton, locals_downloadFile]
    exact insertLocal_mem m.identifier s0.locals

/-- C7 witness for the amended statement: the hypotheses hold of the
concrete one-frame movie movieW and the empty store, and the theorem
applies to them. -/
theorem scratch_cleanup_success_only_witness :
    (({ objects := [], locals := [] } : Store).locals = [])
    ∧ (([((0 : ℚ), (0 : ℕ))] : List (ℚ × ℕ)) ≠ [])
    ∧ (movieW.identifier ≠ tempTif)
    ∧ ((runTrace { objects := [], locals := [] }
          (extract_frames movieW [((0 : ℚ), (0 : ℕ))] ("frame"))).locals = []
      ∧ tempTif ∈ (runTrace { objects := [], locals := [] }
          (extract_project_frames movieW [((0 : ℚ), (0 : ℕ))] ("frame"))).locals
      ∧ (runTrace { objects := [], locals := [] }
          (@compute_pivScratchTrace ℕ ("examplevideo") ("velocity.nc"))).locals = []
      ∧ (runTrace { objects := [], locals := [] }
          (@filter_piv ℕ ("examplevideo") ("velocity.nc"))).locals = []
      ∧ (runTrace { objects := [], locals := [] }
          (@compute_q ℕ ("examplevideo") ("velocity_filter.nc"))).locals = []
      ∧ movieW.identifier ∈ (runTrace { objects := [], locals := [] }
          ((extract_frames movieW [((0 : ℚ), (0 : ℕ))] ("frame")).take 1)).locals) :=
  ⟨rfl, by decide, by decide,
    scratch_cleanup_success_only movieW [((0 : ℚ), (0 : ℕ))] ("frame") ("examplevideo")
      ("velocity.nc") ("velocity.nc") { objects := [], locals := [] } rfl (by decide) (by decide)⟩

/-! ### PIV loop lemmas -/

theorem pivLoop_calls_some {Img A : Type} (pivK : Img → Img → ℚ → ℚ → ℚ → PivOut A)
    (res t0 : ℚ) (fns : List (S3Obj Img)) :
    ∀ p : Img × ℚ, (pivLoop pivK res t0 (some p) fns).calls
      = List.zipWith (mkPivCall res) (p :: fns.map pairOf) (fns.map pairOf) := by
  induction fns with
  | nil => intro p; rfl
  | cons fn rest ih =>
    intro p
    obtain ⟨fa, pms⟩ := p
    show ({ frame_a := fa, frame_b := fn.content, res_x := res, res_y := res,
              dt := ((msOfKey fn.key : ℚ) - pms) / 1000 } : PivCall Img)
        :: (pivLoop pivK res t0 (some (fn.content, (msOfKey fn.key : ℚ))) rest).calls = _
    rw [ih (fn.content, (msOfKey fn.key : ℚ))]
    rfl

theorem pivLoop_calls_none {Img A : Type} (pivK : Img → Img → ℚ → ℚ → ℚ → PivOut A)
    (res t0 : ℚ) (fns : List (S3Obj Img)) :
    (pivLoop pivK res t0 none fns).calls
      = List.zipWith (mkPivCall res) (fns.map pairOf) (fns.tail.map pairOf) := by
  cases fns with
  | nil => rfl
  | cons f rest =>
    show (pivLoop pivK res t0 (some (pairOf f)) rest).calls = _
    rw [pivLoop_calls_some]
    rfl

theorem pivLoop_colsrows_short {Img A : Type} (pivK : Img → Img → ℚ → ℚ → ℚ → PivOut A)
    (res t0 : ℚ) (fns : List (S3Obj Img)) (h : fns.length < 2) :
    (pivLoop pivK res t0 none fns).colsrows = none := by
  cases fns with
  | nil => rfl
  | cons f rest =>
    cases rest with
    | nil => rfl
    | cons f2 rest2 => simp only [List.length_cons] at h; omega

theorem pivLoop_colsrows_last {Img A : Type} (pivK : Img → Img → ℚ → ℚ → ℚ → PivOut A)
    (res t0 : ℚ) (C R : List (List ℚ))
    (hK : ∀ a b rx ry dt, (pivK a b rx ry dt).cols = C ∧ (pivK a b rx ry dt).rows = R) :
    ∀ (fns : List (S3Obj Img)) (p : Img × ℚ), fns ≠ [] →
      (pivLoop pivK res t0 (some p) fns).colsrows = some (C, R) := by
  intro fns
  induction fns with
  | nil => intro p h; exact absurd rfl h
  | cons fn rest ih =>
    intro p _
    obtain ⟨fa, pms⟩ := p
    show some ((pivLoop pivK res t0 (some (fn.content, (msOfKey fn.key : ℚ))) rest).colsrows.getD
        ((pivK fa fn.content res res (((msOfKey fn.key : ℚ) - pms) / 1000)).cols,
         (pivK fa fn.content res res (((msOfKey fn.key : ℚ) - pms) / 1000)).rows))
      = some (C, R)
    cases rest with
    | nil =>
      rw [(hK fa fn.content res res (((msOfKey fn.key : ℚ) - pms) / 1000)).1,
          (hK fa fn.content res res (((msOfKey fn.key : ℚ) - pms) / 1000)).2]
      rfl
    | cons f2 rest2 =>
      rw [ih (fn.content, (msOfKey fn.key : ℚ)) (by simp)]
      rfl

/-! ### C4: adjacent pairing of compute_piv -/

/-- C4: the frame-pair loop of compute_piv issues exactly one PIV call
per adjacent pair of the prefix-filtered listing, in listing order:
call k pairs frame k with frame k+1 and carries dt equal to the
difference of the millisecond offsets parsed from the two keys, in
seconds; no non-adjacent pair is ever processed, and a listing of N
frames yields N - 1 calls. -/
theorem compute_piv_adjacent_pairs {Img A : Type} (pivK : Img → Img → ℚ → ℚ → ℚ → PivOut A)
    (m : MovieP Img) (pfx : String) :
    computePivCalls pivK m pfx
      = List.zipWith
          (fun a b => ({ frame_a := a.content, frame_b := b.content, res_x := m.resolution,
                         res_y := m.resolution,
                         dt := ((msOfKey b.key : ℚ) - (msOfKey a.key : ℚ)) / 1000 } : PivCall Img))
          (m.objects.filter (keyHasPfx pfx))
          (m.objects.filter (keyHasPfx pfx)).tail
    ∧ (computePivCalls pivK m pfx).length
        = (m.objects.filter (keyHasPfx pfx)).length - 1 := by
  have hc : computePivCalls pivK m pfx
      = List.zipWith (mkPivCall m.resolution)
          ((m.objects.filter (keyHasPfx pfx)).map pairOf)
          ((m.objects.filter (keyHasPfx pfx)).tail.map pairOf) :=
    pivLoop_calls_none pivK m.resolution m.startTime _
  constructor
  · rw [hc, List.zipWith_map]
    rfl
  · rw [hc]
    simp [List.length_zipWith]

/-! ### C1: compute_piv on fewer than two rectified frames -/

/-- C1 (amended): for a movie whose bucket holds fewer than two objects
matching the configured prefix, compute_piv produces no velocity grid
and fails - but with an uncaught NameError on the never-assigned local
variable cols, not with an InsufficientDataError, which the code neither
defines nor raises. -/
theorem compute_piv_too_few_frames {Img A : Type} (pivK : Img → Img → ℚ → ℚ → ℚ → PivOut A)
    (convert : Img → List (List ℚ) → List (List ℚ) → ConvOut) (m : MovieP Img) (pfx : String)
    (h : (m.objects.filter (keyHasPfx pfx)).length < 2) :
    compute_piv pivK convert m pfx = Except.error (PyError.unboundLocal colsVar) := by
  have hc := pivLoop_colsrows_short pivK m.resolution m.startTime
    (m.objects.filter (keyHasPfx pfx)) h
  simp only [compute_piv]
  rw [hc]

/-- C1 witness: the hypothesis holds of the concrete one-frame movie
mPiv1, and the theorem applies to it. -/
theorem compute_piv_too_few_frames_witness :
    ((mPiv1.objects.filter (keyHasPfx ("proj"))).length < 2)
    ∧ compute_piv pivKW convW mPiv1 ("proj") = Except.error (PyError.unboundLocal colsVar) :=
  ⟨by decide, compute_piv_too_few_frames pivKW convW mPiv1 ("proj") (by decide)⟩

/-- C1 counterexample: at the concrete one-frame movie mPiv1 the failure
of compute_piv is the NameError on cols, which is not the
InsufficientDataError the claim names. -/
theorem compute_piv_no_insufficient_data_error :
    compute_piv pivKW convW mPiv1 ("proj") = Except.error (PyError.unboundLocal colsVar)
    ∧ PyError.unboundLocal colsVar ≠ PyError.insufficientData :=
  ⟨rfl, by decide⟩

/-! ### C2: resolution passed to the orthorectification -/

/-- C2: the resolution extract_project_frames passes to every
orthorectification call is the hardcoded 0.01 of line 112; for the
concrete movie movie05, whose camera_config carries target resolution
0.05, the value passed differs from the configured one (which
compute_piv later uses to scale velocities). -/
theorem extract_project_frames_resolution_hardcoded :
    (projOrthoCalls movie05.camera_config movie05.h_a
        ([((0 : ℚ), (0 : ℕ))])).map (fun c => c.resolution) = [1 / 100]
    ∧ movie05.camera_config.resolution = 1 / 20
    ∧ ((1 : ℚ) / 100) ≠ ((1 : ℚ) / 20) := by
  refine ⟨rfl, rfl, by norm_num⟩

/-! ### C3: grid geometry shared across time steps -/

/-- C3: when the PIV kernel returns a fixed mesh (cols C, rows R), a
successful compute_piv run derives the projected and geographic
coordinate grids of its dataset once, from the transform of the first
prefix-matching file of the listing (the read-back at line 249), and the
dataset carries a single grid geometry: every time step of the output
shares it. -/
theorem compute_piv_grid_from_first_file {Img A : Type}
    (pivK : Img → Img → ℚ → ℚ → ℚ → PivOut A)
    (convert : Img → List (List ℚ) → List (List ℚ) → ConvOut) (m : MovieP Img)
    (pfx : String) (C R : List (List ℚ)) (f0 f1 : S3Obj Img) (rest : List (S3Obj Img))
    (hfns : m.objects.filter (keyHasPfx pfx) = f0 :: f1 :: rest)
    (hK : ∀ a b rx ry dt, (pivK a b rx ry dt).cols = C ∧ (pivK a b rx ry dt).rows = R)
    (hCne : C ≠ []) (hC : 2 ≤ (C.headD []).length) (hR : 2 ≤ R.length) :
    ∃ ds : Dataset A, compute_piv pivK convert m pfx = Except.ok ds
      ∧ ds.lats = (convert f0.content C R).lats
      ∧ ds.lons = (convert f0.content C R).lons
      ∧ ds.xs = (convert f0.content C R).xs
      ∧ ds.ys = (convert f0.content C R).ys
      ∧ (∀ i j : ℕ, geomAtTime ds i = geomAtTime ds j) := by
  have hcr : (pivLoop pivK m.resolution m.startTime none
      (m.objects.filter (keyHasPfx pfx))).colsrows = some (C, R) := by
    rw [hfns]
    show (pivLoop pivK m.resolution m.startTime (some (f0.content, (msOfKey f0.key : ℚ)))
      (f1 :: rest)).colsrows = some (C, R)
    exact pivLoop_colsrows_last pivK m.resolution m.startTime C R hK (f1 :: rest)
      (f0.content, (msOfKey f0.key : ℚ)) (by simp)
  obtain ⟨c0, Ct, rfl⟩ : ∃ c0 Ct, C = c0 :: Ct := by
    cases C with
    | nil => exact absurd rfl hCne
    | cons a b => exact ⟨a, b, rfl⟩
  obtain ⟨x1, x2, c0t, rfl⟩ : ∃ x1 x2 t, c0 = x1 :: x2 :: t := by
    cases c0 with
    | nil => simp at hC
    | cons a tl =>
      cases tl with
      | nil => simp at hC
      | cons b tl2 => exact ⟨a, b, tl2, rfl⟩
  obtain ⟨r0, r1, Rt, rfl⟩ : ∃ r0 r1 t, R = r0 :: r1 :: t := by
    cases R with
    | nil => simp at hR
    | cons a tl =>
      cases tl with
      | nil => simp at hR
      | cons b tl2 => exact ⟨a, b, tl2, rfl⟩
  simp only [compute_piv]
  rw [hcr, hfns]
  exact ⟨_, rfl, rfl, rfl, rfl, rfl, fun i j => rfl⟩

/-- C3 witness: the hypotheses hold of the concrete two-frame movie
mPiv2 with the fixed-mesh kernel pivKW and the file-dependent conversion
convW, and the theorem applies to them. -/
theorem compute_piv_grid_from_first_file_witness :
    (mPiv2.objects.filter (keyHasPfx ("proj")) = objW0 :: objW1 :: [])
    ∧ (∃ ds : Dataset ℕ, compute_piv pivKW convW mPiv2 ("proj") = Except.ok ds
        ∧ ds.lats = (convW objW0.content [[0, 1]] [[0], [2]]).lats
        ∧ ds.lons = (convW objW0.content [[0, 1]] [[0], [2]]).lons
        ∧ ds.xs = (convW objW0.content [[0, 1]] [[0], [2]]).xs
        ∧ ds.ys = (convW objW0.content [[0, 1]] [[0], [2]]).ys
        ∧ (∀ i j : ℕ, geomAtTime ds i = geomAtTime ds j)) :=
  ⟨rfl, compute_piv_grid_from_first_file pivKW convW mPiv2 ("proj") [[0, 1]] [[0], [2]]
    objW0 objW1 [] rfl (fun a b rx ry dt => ⟨rfl, rfl⟩) (by decide) (by decide) (by decide)⟩
